import Mathlib

/-!
Verification of the interaction-timing metrics recorder of the
Telephone-Voice-Agents repository (class `VoiceAgentMetrics` in `main.py`).

Timestamps and durations are idealised as rational numbers; Python's
`round(x, 3)` (round half to even, to three decimal places) is modelled by
`round3`.  The stateful methods of `VoiceAgentMetrics` become functions on an
explicit state record; a method that can raise (`calculate_metrics` when
`session_start_time` is still `None`, which makes `float - None` raise a
`TypeError`) returns `Except Unit`, the error case paired with the state as
mutated up to the raise point.  File writes are modelled by returning the
path together with the exact content that would be written.
-/

/-- Round half to even to the nearest integer, the tie-breaking rule of
Python's builtin `round`. -/
def roundHalfEven (q : ℚ) : ℤ :=
  if q - ⌊q⌋ < 1/2 then ⌊q⌋
  else if q - ⌊q⌋ > 1/2 then ⌊q⌋ + 1
  else if Even ⌊q⌋ then ⌊q⌋ else ⌊q⌋ + 1

/-- Python's `round(x, 3)`: round to three decimal places, ties to even. -/
def round3 (q : ℚ) : ℚ := (roundHalfEven (q * 1000) : ℚ) / 1000

/-- One interaction record: the dict built by the caller (`on_message` /
`_add_demo_interactions` in `main.py`) and passed to `log_interaction`.
`session_id` is stamped onto the dict by `log_interaction`. -/
structure Interaction where
  timestamp : String
  interaction_id : String
  speech_start_time : ℚ
  speech_end_time : ℚ
  response_start_time : ℚ
  agent_response_end_time : ℚ
  user_speaking_time : ℚ
  agent_reply_time : ℚ
  user_response_waiting_time : ℚ
  agent_idle_time_per_question : ℚ
  session_id : String
deriving DecidableEq

/-- The summary dict built by `VoiceAgentMetrics.calculate_metrics`. -/
structure Summary where
  session_id : String
  total_questions : ℕ
  total_user_speaking_time : ℚ
  average_user_speaking_time : ℚ
  total_agent_reply_time : ℚ
  average_agent_reply_time : ℚ
  total_agent_idle_time : ℚ
  average_agent_idle_time : ℚ
  total_voice_agent_response_time_during_start_end_call : ℚ
  session_start_time : Option ℚ
  session_end_time : Option ℚ
deriving DecidableEq

/-- The mutable state of a `VoiceAgentMetrics` instance: `session_start_time`
and `session_end_time` are `None` until `start_session` / `end_session` run,
`interactions` is the ordered list of logged records, `session_id` is fixed at
construction. -/
structure VoiceAgentMetrics where
  session_start_time : Option ℚ
  session_end_time : Option ℚ
  interactions : List Interaction
  session_id : String
deriving DecidableEq

namespace VoiceAgentMetrics

/-- `start_session`: store the current wall-clock time (passed explicitly). -/
def start_session (s : VoiceAgentMetrics) (t : ℚ) : VoiceAgentMetrics :=
  { s with session_start_time := some t }

/-- `end_session`: store the current wall-clock time (passed explicitly). -/
def end_session (s : VoiceAgentMetrics) (t : ℚ) : VoiceAgentMetrics :=
  { s with session_end_time := some t }

/-- `log_interaction`: stamp the recorder's session id onto the record and
append it to the ordered list.  No other check or change is made. -/
def log_interaction (s : VoiceAgentMetrics) (r : Interaction) : VoiceAgentMetrics :=
  { s with interactions := s.interactions ++ [{ r with session_id := s.session_id }] }

/-- The assignment `interaction['agent_idle_time_per_question'] = round(...)`,
the first statement of the per-record loop body in `calculate_metrics`. -/
def updateIdleOnly (r : Interaction) : Interaction :=
  { r with agent_idle_time_per_question :=
      round3 (r.response_start_time - r.speech_end_time) }

/-- The full loop body of `calculate_metrics` for one record: assign
`agent_idle_time_per_question`, then `user_response_waiting_time` as
`round(speech_start_time - anchor, 3)` where `anchor` is
`session_start_time` for the first record and the previous record's
`agent_response_end_time` otherwise. -/
def updateRecord (anchor : ℚ) (r : Interaction) : Interaction :=
  { r with
    agent_idle_time_per_question :=
      round3 (r.response_start_time - r.speech_end_time),
    user_response_waiting_time :=
      round3 (r.speech_start_time - anchor) }

/-- The per-record loop of `calculate_metrics` over the whole list.  The
Python loop reads `self.interactions[i-1]['agent_response_end_time']` from the
already-mutated list, but `agent_response_end_time` is never written by the
loop, so passing the pre-update field of the current head as the next anchor
is the same value. -/
def metricsPass (anchor : ℚ) : List Interaction → List Interaction
  | [] => []
  | r :: rest => updateRecord anchor r :: metricsPass r.agent_response_end_time rest

/-- The summary dict built at the end of `calculate_metrics`.  Note the
Python source guards the session duration with the truthiness test
`if self.session_end_time`, which is falsy both for `None` and for `0.0`. -/
def mkSummary (s : VoiceAgentMetrics) (st : ℚ) (ints : List Interaction) : Summary :=
  let total_us := (ints.map Interaction.user_speaking_time).sum
  let total_ar := (ints.map Interaction.agent_reply_time).sum
  let total_ai := (ints.map Interaction.agent_idle_time_per_question).sum
  let n := ints.length
  { session_id := s.session_id
    total_questions := n
    total_user_speaking_time := round3 total_us
    average_user_speaking_time := round3 (total_us / (n : ℚ))
    total_agent_reply_time := round3 total_ar
    average_agent_reply_time := round3 (total_ar / (n : ℚ))
    total_agent_idle_time := round3 total_ai
    average_agent_idle_time := round3 (total_ai / (n : ℚ))
    total_voice_agent_response_time_during_start_end_call :=
      match s.session_end_time with
      | none => 0
      | some e => if e = 0 then 0 else round3 (e - st)
    session_start_time := s.session_start_time
    session_end_time := s.session_end_time }

/-- `calculate_metrics`.  Empty list: warn and return `None` (modelled
`Except.ok none`), state untouched.  Non-empty list with
`session_start_time = None`: the loop assigns the first record's
`agent_idle_time_per_question`, then `speech_start_time - None` raises a
`TypeError` (modelled `Except.error`), leaving that partial mutation behind.
Otherwise: run the loop over every record and return the summary. -/
def calculate_metrics (s : VoiceAgentMetrics) :
    Except Unit (Option Summary) × VoiceAgentMetrics :=
  match s.interactions with
  | [] => (.ok none, s)
  | r0 :: rest =>
    match s.session_start_time with
    | none => (.error (), { s with interactions := updateIdleOnly r0 :: rest })
    | some st =>
      let newInts := metricsPass st (r0 :: rest)
      (.ok (some (mkSummary s st newInts)), { s with interactions := newInts })

/-- One CSV cell: the dict values are strings or floats. -/
inductive Cell where
  | str (s : String)
  | num (q : ℚ)
deriving DecidableEq

/-- The fixed `fieldnames` list of `save_csv`. -/
def csvHeader : List String :=
  ["session_id", "timestamp", "interaction_id", "speech_start_time",
   "speech_end_time", "response_start_time", "agent_response_end_time",
   "user_speaking_time", "agent_reply_time", "user_response_waiting_time",
   "agent_idle_time_per_question"]

/-- One CSV row: the record's values in `fieldnames` order, as written by
`csv.DictWriter.writerows`. -/
def csvRow (r : Interaction) : List Cell :=
  [.str r.session_id, .str r.timestamp, .str r.interaction_id,
   .num r.speech_start_time, .num r.speech_end_time,
   .num r.response_start_time, .num r.agent_response_end_time,
   .num r.user_speaking_time, .num r.agent_reply_time,
   .num r.user_response_waiting_time, .num r.agent_idle_time_per_question]

/-- The path `os.path.join("logs", f"voice_agent_metrics_{session_id}.csv")`. -/
def csv_path (s : VoiceAgentMetrics) : String :=
  "logs/voice_agent_metrics_" ++ s.session_id ++ ".csv"

/-- The file written by `save_csv`: its path, header line and data rows.
`save_csv` itself returns the path (or `None` on an empty session); the
content is carried along so the export can be compared with `save_json`. -/
structure CsvExport where
  path : String
  header : List String
  rows : List (List Cell)
deriving DecidableEq

/-- `save_csv`: `None` and a warning when no records exist, otherwise write
one row per record in list order and return the path.  The state is not
changed. -/
def save_csv (s : VoiceAgentMetrics) : Option CsvExport :=
  match s.interactions with
  | [] => none
  | _ => some ⟨csv_path s, csvHeader, s.interactions.map csvRow⟩

/-- The path `os.path.join("logs", f"voice_agent_metrics_{session_id}.json")`. -/
def json_path (s : VoiceAgentMetrics) : String :=
  "logs/voice_agent_metrics_" ++ s.session_id ++ ".json"

/-- The file written by `save_json` (and its returned path): the document
`{"session_info": summary-or-null, "interactions": [...]}`. -/
structure JsonExport where
  path : String
  session_info : Option Summary
  interactions : List Interaction
deriving DecidableEq

/-- `save_json`: call `calculate_metrics` (so the stored records are mutated
first), then unconditionally write the document and return the path.  There
is no empty-session guard here; when `calculate_metrics` raises, the
exception propagates before any file is written. -/
def save_json (s : VoiceAgentMetrics) :
    Except Unit JsonExport × VoiceAgentMetrics :=
  let p := calculate_metrics s
  match p.1 with
  | .error _ => (.error (), p.2)
  | .ok summ => (.ok ⟨json_path s, summ, p.2.interactions⟩, p.2)

/-- A throwaway record used as the default value of `List.getD`; all claim
statements only read list positions below the list length, so its content
never matters. -/
def padRecord : Interaction :=
  { timestamp := "", interaction_id := "", speech_start_time := 0,
    speech_end_time := 0, response_start_time := 0,
    agent_response_end_time := 0, user_speaking_time := 0,
    agent_reply_time := 0, user_response_waiting_time := 0,
    agent_idle_time_per_question := 0, session_id := "" }

/-- Turn 1 of the worked scenario of the specification: speech 1000.5–1002,
reply 1002–1004, with the placeholder derived fields the caller supplies. -/
def wRec1 : Interaction :=
  { timestamp := "2024-01-01T00:00:00", interaction_id := "turn_1",
    speech_start_time := 2001/2, speech_end_time := 1002,
    response_start_time := 1002, agent_response_end_time := 1004,
    user_speaking_time := 3/2, agent_reply_time := 2,
    user_response_waiting_time := 0, agent_idle_time_per_question := 0,
    session_id := "sess" }

/-- Turn 2 of the worked scenario: speech 1010–1011, reply 1011.5–1013. -/
def wRec2 : Interaction :=
  { timestamp := "2024-01-01T00:00:10", interaction_id := "turn_2",
    speech_start_time := 1010, speech_end_time := 1011,
    response_start_time := 2023/2, agent_response_end_time := 1013,
    user_speaking_time := 1, agent_reply_time := 3/2,
    user_response_waiting_time := 0, agent_idle_time_per_question := 0,
    session_id := "sess" }

/-- A recorder over the worked scenario: session 1000–1020, two turns. -/
def wState : VoiceAgentMetrics :=
  { session_start_time := some 1000, session_end_time := some 1020,
    interactions := [wRec1, wRec2], session_id := "sess" }

/-- A freshly constructed recorder: nothing started, nothing logged. -/
def emptyRec : VoiceAgentMetrics :=
  { session_start_time := none, session_end_time := none,
    interactions := [], session_id := "sess" }

/-- A single logged turn with placeholder derived fields (waiting time 0)
whose recomputed waiting time is 1. -/
def ex3rec : Interaction :=
  { timestamp := "2024-01-01T00:00:00", interaction_id := "i1",
    speech_start_time := 1, speech_end_time := 2, response_start_time := 2,
    agent_response_end_time := 3, user_speaking_time := 1,
    agent_reply_time := 1, user_response_waiting_time := 0,
    agent_idle_time_per_question := 0, session_id := "sess" }

/-- A started (t = 0), not yet ended session holding `ex3rec`. -/
def ex3 : VoiceAgentMetrics :=
  { session_start_time := some 0, session_end_time := none,
    interactions := [ex3rec], session_id := "sess" }

/-- A session that was started at 5 and whose end time is the float `0.0`:
`some 0` is a set end time, yet Python's `if self.session_end_time` is falsy
on it. -/
def cEnd0 : VoiceAgentMetrics :=
  { session_start_time := some 5, session_end_time := some 0,
    interactions := [ex3rec], session_id := "sess" }

/-- A recorder with one logged turn on which `start_session` never ran. -/
def noStart : VoiceAgentMetrics :=
  { session_start_time := none, session_end_time := none,
    interactions := [ex3rec], session_id := "sess" }

theorem metricsPass_length (a : ℚ) (l : List Interaction) :
    (metricsPass a l).length = l.length := by
  induction l generalizing a with
  | nil => rfl
  | cons r rest ih => simp [metricsPass, ih]

theorem getD_map_lt {α β : Type} (f : α → β) (l : List α) (i : ℕ)
    (h : i < l.length) (d : α) (d' : β) :
    (l.map f).getD i d' = f (l.getD i d) := by
  induction l generalizing i with
  | nil => simp at h
  | cons x xs ih =>
    cases i with
    | zero => rfl
    | succ j => simpa using ih j (by simpa using h)

theorem metricsPass_getD (l : List Interaction) (a : ℚ) (i : ℕ)
    (h : i < l.length) (d : Interaction) :
    (metricsPass a l).getD i d =
      updateRecord
        (if i = 0 then a else (l.getD (i - 1) d).agent_response_end_time)
        (l.getD i d) := by
  induction l generalizing a i with
  | nil => simp at h
  | cons r rest ih =>
    cases i with
    | zero => rfl
    | succ j =>
      have h' : j < rest.length := by simpa using h
      simp only [metricsPass, List.getD_cons_succ]
      rw [ih _ j h']
      cases j with
      | zero => simp
      | succ k => simp

theorem updateRecord_updateRecord (a : ℚ) (r : Interaction) :
    updateRecord a (updateRecord a r) = updateRecord a r := rfl

theorem updateRecord_agent_response_end_time (a : ℚ) (r : Interaction) :
    (updateRecord a r).agent_response_end_time = r.agent_response_end_time := rfl

theorem metricsPass_metricsPass (a : ℚ) (l : List Interaction) :
    metricsPass a (metricsPass a l) = metricsPass a l := by
  induction l generalizing a with
  | nil => rfl
  | cons r rest ih =>
    simp [metricsPass, updateRecord_updateRecord,
      updateRecord_agent_response_end_time, ih]

theorem getD_append_length {α : Type} (l : List α) (x d : α) :
    (l ++ [x]).getD l.length d = x := by
  induction l with
  | nil => rfl
  | cons y ys ih =>
    simp only [List.cons_append, List.length_cons, List.getD_cons_succ]
    exact ih

/-- C5: on a recorder whose interaction list is empty, `calculate_metrics`
logs a warning and returns the null-equivalent `None` without raising, and
leaves the state unchanged, whatever `session_start_time` and
`session_end_time` hold. -/
theorem calculate_metrics_empty_returns_none (s : VoiceAgentMetrics)
    (h : s.interactions = []) :
    calculate_metrics s = (Except.ok none, s) := by
  simp [calculate_metrics, h]

theorem calculate_metrics_empty_returns_none_witness :
    calculate_metrics emptyRec = (Except.ok none, emptyRec) :=
  calculate_metrics_empty_returns_none emptyRec rfl

/-- C9: if `start_session` never ran (`session_start_time` is still `None`)
and at least one record was logged, `calculate_metrics` raises (a `TypeError`
from `float - None`) while computing the first record's
`user_response_waiting_time`: the first record's
`agent_idle_time_per_question` has already been reassigned at that point
while its `user_response_waiting_time` is still untouched, and no
null-equivalent is returned. -/
theorem calculate_metrics_unset_start_raises (s : VoiceAgentMetrics)
    (r0 : Interaction) (rest : List Interaction)
    (hst : s.session_start_time = none) (hin : s.interactions = r0 :: rest) :
    (calculate_metrics s).1 = Except.error () ∧
    ((calculate_metrics s).2.interactions.getD 0 padRecord).agent_idle_time_per_question
      = round3 (r0.response_start_time - r0.speech_end_time) ∧
    ((calculate_metrics s).2.interactions.getD 0 padRecord).user_response_waiting_time
      = r0.user_response_waiting_time := by
  simp [calculate_metrics, hst, hin, updateIdleOnly]

theorem calculate_metrics_unset_start_raises_witness :
    (calculate_metrics noStart).1 = Except.error () ∧
    ((calculate_metrics noStart).2.interactions.getD 0 padRecord).agent_idle_time_per_question
      = round3 (ex3rec.response_start_time - ex3rec.speech_end_time) ∧
    ((calculate_metrics noStart).2.interactions.getD 0 padRecord).user_response_waiting_time
      = ex3rec.user_response_waiting_time :=
  calculate_metrics_unset_start_raises noStart ex3rec [] rfl rfl

/-- C8: `log_interaction` appends the record at the end of the list with the
recorder's session id stamped into its `session_id` field and every other
field taken unchanged from the argument; all previously stored records and
the session-level fields are untouched; the operation is a total function,
so it always succeeds. -/
theorem log_interaction_appends (s : VoiceAgentMetrics) (r : Interaction) :
    (log_interaction s r).interactions.length = s.interactions.length + 1 ∧
    (log_interaction s r).interactions.take s.interactions.length = s.interactions ∧
    ((log_interaction s r).interactions.getD s.interactions.length padRecord).session_id
      = s.session_id ∧
    ((log_interaction s r).interactions.getD s.interactions.length padRecord).timestamp
      = r.timestamp ∧
    ((log_interaction s r).interactions.getD s.interactions.length padRecord).interaction_id
      = r.interaction_id ∧
    ((log_interaction s r).interactions.getD s.interactions.length padRecord).speech_start_time
      = r.speech_start_time ∧
    ((log_interaction s r).interactions.getD s.interactions.length padRecord).speech_end_time
      = r.speech_end_time ∧
    ((log_interaction s r).interactions.getD s.interactions.length padRecord).response_start_time
      = r.response_start_time ∧
    ((log_interaction s r).interactions.getD s.interactions.length padRecord).agent_response_end_time
      = r.agent_response_end_time ∧
    ((log_interaction s r).interactions.getD s.interactions.length padRecord).user_speaking_time
      = r.user_speaking_time ∧
    ((log_interaction s r).interactions.getD s.interactions.length padRecord).agent_reply_time
      = r.agent_reply_time ∧
    ((log_interaction s r).interactions.getD s.interactions.length padRecord).user_response_waiting_time
      = r.user_response_waiting_time ∧
    ((log_interaction s r).interactions.getD s.interactions.length padRecord).agent_idle_time_per_question
      = r.agent_idle_time_per_question ∧
    (log_interaction s r).session_id = s.session_id ∧
    (log_interaction s r).session_start_time = s.session_start_time ∧
    (log_interaction s r).session_end_time = s.session_end_time := by
  simp [log_interaction, getD_append_length, List.take_left]

/-- C6: `calculate_metrics` is idempotent: a second call on the state left
behind by a first call (with no logging or session call in between) produces
the identical result — the same summary, warning or exception — and leaves
the stored records exactly as the first call left them. -/
theorem calculate_metrics_idempotent (s : VoiceAgentMetrics) :
    calculate_metrics ((calculate_metrics s).2) = calculate_metrics s := by
  rcases hin : s.interactions with _ | ⟨r0, rest⟩
  · simp [calculate_metrics, hin]
  · rcases hst : s.session_start_time with _ | st
    · simp [calculate_metrics, hin, hst, updateIdleOnly]
    · simp [calculate_metrics, hin, hst, metricsPass, metricsPass_metricsPass,
        updateRecord_updateRecord, updateRecord_agent_response_end_time, mkSummary]

theorem calculate_metrics_interactions_eq (s : VoiceAgentMetrics) (st : ℚ)
    (hst : s.session_start_time = some st) (r0 : Interaction)
    (rest : List Interaction) (hl : s.interactions = r0 :: rest) :
    (calculate_metrics s).2 =
      { s with interactions := metricsPass st s.interactions } := by
  simp [calculate_metrics, hl, hst]

/-- C1: with at least one record logged and `session_start_time` set,
`calculate_metrics` recomputes, for every record in sequence order,
`agent_idle_time_per_question = round(response_start_time - speech_end_time, 3)`
and `user_response_waiting_time = round(speech_start_time - session_start_time, 3)`
for the first record, respectively
`round(speech_start_time[i] - agent_response_end_time[i-1], 3)` for every
record `i > 0`. -/
theorem calculate_metrics_per_record_formulas (s : VoiceAgentMetrics) (st : ℚ)
    (hst : s.session_start_time = some st) (hin : s.interactions ≠ []) :
    (calculate_metrics s).2.interactions.length = s.interactions.length ∧
    ∀ i, i < s.interactions.length →
      ((calculate_metrics s).2.interactions.getD i padRecord).agent_idle_time_per_question
        = round3 ((s.interactions.getD i padRecord).response_start_time
            - (s.interactions.getD i padRecord).speech_end_time) ∧
      ((calculate_metrics s).2.interactions.getD i padRecord).user_response_waiting_time
        = (if i = 0 then
            round3 ((s.interactions.getD i padRecord).speech_start_time - st)
          else
            round3 ((s.interactions.getD i padRecord).speech_start_time
              - (s.interactions.getD (i - 1) padRecord).agent_response_end_time)) := by
  obtain ⟨r0, rest, hl⟩ : ∃ r0 rest, s.interactions = r0 :: rest := by
    cases h : s.interactions with
    | nil => exact absurd h hin
    | cons a b => exact ⟨a, b, rfl⟩
  have h2 := calculate_metrics_interactions_eq s st hst r0 rest hl
  refine ⟨by rw [h2]; exact metricsPass_length st s.interactions, ?_⟩
  intro i hi
  rw [h2]
  show ((metricsPass st s.interactions).getD i padRecord).agent_idle_time_per_question = _
    ∧ ((metricsPass st s.interactions).getD i padRecord).user_response_waiting_time = _
  rw [metricsPass_getD s.interactions st i hi padRecord]
  refine ⟨rfl, ?_⟩
  by_cases h0 : i = 0
  · simp [h0, updateRecord]
  · simp [h0, updateRecord]

theorem calculate_metrics_per_record_formulas_witness :
    (calculate_metrics wState).2.interactions.length = wState.interactions.length ∧
    ∀ i, i < wState.interactions.length →
      ((calculate_metrics wState).2.interactions.getD i padRecord).agent_idle_time_per_question
        = round3 ((wState.interactions.getD i padRecord).response_start_time
            - (wState.interactions.getD i padRecord).speech_end_time) ∧
      ((calculate_metrics wState).2.interactions.getD i padRecord).user_response_waiting_time
        = (if i = 0 then
            round3 ((wState.interactions.getD i padRecord).speech_start_time - 1000)
          else
            round3 ((wState.interactions.getD i padRecord).speech_start_time
              - (wState.interactions.getD (i - 1) padRecord).agent_response_end_time)) :=
  calculate_metrics_per_record_formulas wState 1000 rfl (by decide)

/-- C10: with at least one record logged and `session_start_time` set,
`calculate_metrics` only writes the two derived fields
`agent_idle_time_per_question` and `user_response_waiting_time` of each
stored record: the record count and order, every other record field
(timestamp, interaction id, the four raw timestamps, the two caller-derived
durations, the stamped session id) and the session-level fields
`session_id`, `session_start_time` and `session_end_time` are unchanged. -/
theorem calculate_metrics_frame (s : VoiceAgentMetrics) (st : ℚ)
    (hst : s.session_start_time = some st) (hin : s.interactions ≠ []) :
    (calculate_metrics s).2.session_id = s.session_id ∧
    (calculate_metrics s).2.session_start_time = s.session_start_time ∧
    (calculate_metrics s).2.session_end_time = s.session_end_time ∧
    (calculate_metrics s).2.interactions.length = s.interactions.length ∧
    ∀ i, i < s.interactions.length →
      ((calculate_metrics s).2.interactions.getD i padRecord).timestamp
        = (s.interactions.getD i padRecord).timestamp ∧
      ((calculate_metrics s).2.interactions.getD i padRecord).interaction_id
        = (s.interactions.getD i padRecord).interaction_id ∧
      ((calculate_metrics s).2.interactions.getD i padRecord).speech_start_time
        = (s.interactions.getD i padRecord).speech_start_time ∧
      ((calculate_metrics s).2.interactions.getD i padRecord).speech_end_time
        = (s.interactions.getD i padRecord).speech_end_time ∧
      ((calculate_metrics s).2.interactions.getD i padRecord).response_start_time
        = (s.interactions.getD i padRecord).response_start_time ∧
      ((calculate_metrics s).2.interactions.getD i padRecord).agent_response_end_time
        = (s.interactions.getD i padRecord).agent_response_end_time ∧
      ((calculate_metrics s).2.interactions.getD i padRecord).user_speaking_time
        = (s.interactions.getD i padRecord).user_speaking_time ∧
      ((calculate_metrics s).2.interactions.getD i padRecord).agent_reply_time
        = (s.interactions.getD i padRecord).agent_reply_time ∧
      ((calculate_metrics s).2.interactions.getD i padRecord).session_id
        = (s.interactions.getD i padRecord).session_id := by
  obtain ⟨r0, rest, hl⟩ : ∃ r0 rest, s.interactions = r0 :: rest := by
    cases h : s.interactions with
    | nil => exact absurd h hin
    | cons a b => exact ⟨a, b, rfl⟩
  have h2 := calculate_metrics_interactions_eq s st hst r0 rest hl
  rw [h2]
  refine ⟨rfl, rfl, rfl, metricsPass_length st s.interactions, ?_⟩
  intro i hi
  show ((metricsPass st s.interactions).getD i padRecord).timestamp = _ ∧ _
  rw [metricsPass_getD s.interactions st i hi padRecord]
  exact ⟨rfl, rfl, rfl, rfl, rfl, rfl, rfl, rfl, rfl⟩

theorem calculate_metrics_frame_witness :
    (calculate_metrics wState).2.session_id = wState.session_id ∧
    (calculate_metrics wState).2.session_start_time = wState.session_start_time ∧
    (calculate_metrics wState).2.session_end_time = wState.session_end_time ∧
    (calculate_metrics wState).2.interactions.length = wState.interactions.length ∧
    ∀ i, i < wState.interactions.length →
      ((calculate_metrics wState).2.interactions.getD i padRecord).timestamp
        = (wState.interactions.getD i padRecord).timestamp ∧
      ((calculate_metrics wState).2.interactions.getD i padRecord).interaction_id
        = (wState.interactions.getD i padRecord).interaction_id ∧
      ((calculate_metrics wState).2.interactions.getD i padRecord).speech_start_time
        = (wState.interactions.getD i padRecord).speech_start_time ∧
      ((calculate_metrics wState).2.interactions.getD i padRecord).speech_end_time
        = (wState.interactions.getD i padRecord).speech_end_time ∧
      ((calculate_metrics wState).2.interactions.getD i padRecord).response_start_time
        = (wState.interactions.getD i padRecord).response_start_time ∧
      ((calculate_metrics wState).2.interactions.getD i padRecord).agent_response_end_time
        = (wState.interactions.getD i padRecord).agent_response_end_time ∧
      ((calculate_metrics wState).2.interactions.getD i padRecord).user_speaking_time
        = (wState.interactions.getD i padRecord).user_speaking_time ∧
      ((calculate_metrics wState).2.interactions.getD i padRecord).agent_reply_time
        = (wState.interactions.getD i padRecord).agent_reply_time ∧
      ((calculate_metrics wState).2.interactions.getD i padRecord).session_id
        = (wState.interactions.getD i padRecord).session_id :=
  calculate_metrics_frame wState 1000 rfl (by decide)

/-- C2 (amended): with at least one record and `session_start_time` set, the
summary has `total_questions = N`, each total equal to the 3-decimal
rounding of the sum of the corresponding per-record field (as recomputed by
this call), each average equal to `round(sum / N, 3)` on the unrounded sum,
and a session duration of `round(session_end_time - session_start_time, 3)`
when a non-zero end time is set, and `0` when the end time is unset or is
`0.0` (the code tests Python truthiness of `session_end_time`, on which the
float `0.0` is falsy). -/
theorem calculate_metrics_summary_fields (s : VoiceAgentMetrics) (st : ℚ)
    (hst : s.session_start_time = some st) (hin : s.interactions ≠ []) :
    ∃ su, (calculate_metrics s).1 = Except.ok (some su) ∧
      su.session_id = s.session_id ∧
      su.total_questions = s.interactions.length ∧
      su.total_user_speaking_time
        = round3 (((calculate_metrics s).2.interactions.map Interaction.user_speaking_time).sum) ∧
      su.average_user_speaking_time
        = round3 ((((calculate_metrics s).2.interactions.map Interaction.user_speaking_time).sum)
            / (s.interactions.length : ℚ)) ∧
      su.total_agent_reply_time
        = round3 (((calculate_metrics s).2.interactions.map Interaction.agent_reply_time).sum) ∧
      su.average_agent_reply_time
        = round3 ((((calculate_metrics s).2.interactions.map Interaction.agent_reply_time).sum)
            / (s.interactions.length : ℚ)) ∧
      su.total_agent_idle_time
        = round3 (((calculate_metrics s).2.interactions.map Interaction.agent_idle_time_per_question).sum) ∧
      su.average_agent_idle_time
        = round3 ((((calculate_metrics s).2.interactions.map Interaction.agent_idle_time_per_question).sum)
            / (s.interactions.length : ℚ)) ∧
      (s.session_end_time = none →
        su.total_voice_agent_response_time_during_start_end_call = 0) ∧
      (s.session_end_time = some 0 →
        su.total_voice_agent_response_time_during_start_end_call = 0) ∧
      (∀ e, s.session_end_time = some e → e ≠ 0 →
        su.total_voice_agent_response_time_during_start_end_call = round3 (e - st)) := by
  obtain ⟨r0, rest, hl⟩ : ∃ r0 rest, s.interactions = r0 :: rest := by
    cases h : s.interactions with
    | nil => exact absurd h hin
    | cons a b => exact ⟨a, b, rfl⟩
  have h1 : (calculate_metrics s).1
      = Except.ok (some (mkSummary s st (metricsPass st s.interactions))) := by
    simp [calculate_metrics, hl, hst]
  have h2 := calculate_metrics_interactions_eq s st hst r0 rest hl
  refine ⟨mkSummary s st (metricsPass st s.interactions), h1, rfl,
    ?_, ?_, ?_, ?_, ?_, ?_, ?_, ?_, ?_, ?_⟩
  · simp [mkSummary, metricsPass_length]
  · simp [mkSummary, h2]
  · simp [mkSummary, h2, metricsPass_length]
  · simp [mkSummary, h2]
  · simp [mkSummary, h2, metricsPass_length]
  · simp [mkSummary, h2]
  · simp [mkSummary, h2, metricsPass_length]
  · intro h
    simp [mkSummary, h]
  · intro h
    simp [mkSummary, h]
  · intro e he hne
    simp [mkSummary, he, hne]

theorem calculate_metrics_summary_fields_witness :
    ∃ su, (calculate_metrics wState).1 = Except.ok (some su) ∧
      su.session_id = wState.session_id ∧
      su.total_questions = wState.interactions.length ∧
      su.total_user_speaking_time
        = round3 (((calculate_metrics wState).2.interactions.map Interaction.user_speaking_time).sum) ∧
      su.average_user_speaking_time
        = round3 ((((calculate_metrics wState).2.interactions.map Interaction.user_speaking_time).sum)
            / (wState.interactions.length : ℚ)) ∧
      su.total_agent_reply_time
        = round3 (((calculate_metrics wState).2.interactions.map Interaction.agent_reply_time).sum) ∧
      su.average_agent_reply_time
        = round3 ((((calculate_metrics wState).2.interactions.map Interaction.agent_reply_time).sum)
            / (wState.interactions.length : ℚ)) ∧
      su.total_agent_idle_time
        = round3 (((calculate_metrics wState).2.interactions.map Interaction.agent_idle_time_per_question).sum) ∧
      su.average_agent_idle_time
        = round3 ((((calculate_metrics wState).2.interactions.map Interaction.agent_idle_time_per_question).sum)
            / (wState.interactions.length : ℚ)) ∧
      (wState.session_end_time = none →
        su.total_voice_agent_response_time_during_start_end_call = 0) ∧
      (wState.session_end_time = some 0 →
        su.total_voice_agent_response_time_during_start_end_call = 0) ∧
      (∀ e, wState.session_end_time = some e → e ≠ 0 →
        su.total_voice_agent_response_time_during_start_end_call = round3 (e - 1000)) :=
  calculate_metrics_summary_fields wState 1000 rfl (by decide)

/-- C2 counterexample: `cEnd0` has its end time set to the float `0.0`
(`session_end_time = some 0`) and its start time to `5`; the claim's formula
demands `round(0 - 5, 3) = -5` for the session duration, but the code's
truthiness test `if self.session_end_time` is falsy on `0.0`, so the summary
carries `0` instead. -/
theorem summary_duration_truthiness_counterexample :
    (match (calculate_metrics cEnd0).1 with
      | Except.ok (some su) => su.total_voice_agent_response_time_during_start_end_call
      | _ => 99) = 0 ∧
    cEnd0.session_end_time = some 0 ∧
    round3 (0 - 5 : ℚ) = -5 ∧ (0 : ℚ) ≠ -5 := by
  refine ⟨?_, rfl, by norm_num [round3, roundHalfEven], by norm_num⟩
  simp [cEnd0, calculate_metrics, mkSummary, metricsPass, ex3rec]

/-- C7: `save_csv` on a recorder with at least one record writes one row per
record, in order, with exactly the fixed column order (session id, timestamp,
interaction id, the four raw timestamps, the four derived durations), to
`logs/voice_agent_metrics_<session_id>.csv`, and returns that path; on a
recorder with zero records it returns the null-equivalent. -/
theorem save_csv_format (s : VoiceAgentMetrics) :
    (s.interactions = [] → save_csv s = none) ∧
    (s.interactions ≠ [] → ∃ o, save_csv s = some o ∧
      o.path = "logs/voice_agent_metrics_" ++ s.session_id ++ ".csv" ∧
      o.header = ["session_id", "timestamp", "interaction_id",
        "speech_start_time", "speech_end_time", "response_start_time",
        "agent_response_end_time", "user_speaking_time", "agent_reply_time",
        "user_response_waiting_time", "agent_idle_time_per_question"] ∧
      o.rows.length = s.interactions.length ∧
      ∀ i, i < s.interactions.length →
        o.rows.getD i [] =
          [Cell.str (s.interactions.getD i padRecord).session_id,
           Cell.str (s.interactions.getD i padRecord).timestamp,
           Cell.str (s.interactions.getD i padRecord).interaction_id,
           Cell.num (s.interactions.getD i padRecord).speech_start_time,
           Cell.num (s.interactions.getD i padRecord).speech_end_time,
           Cell.num (s.interactions.getD i padRecord).response_start_time,
           Cell.num (s.interactions.getD i padRecord).agent_response_end_time,
           Cell.num (s.interactions.getD i padRecord).user_speaking_time,
           Cell.num (s.interactions.getD i padRecord).agent_reply_time,
           Cell.num (s.interactions.getD i padRecord).user_response_waiting_time,
           Cell.num (s.interactions.getD i padRecord).agent_idle_time_per_question]) := by
  constructor
  · intro h
    simp [save_csv, h]
  · intro hin
    obtain ⟨r0, rest, hl⟩ : ∃ r0 rest, s.interactions = r0 :: rest := by
      cases h : s.interactions with
      | nil => exact absurd h hin
      | cons a b => exact ⟨a, b, rfl⟩
    refine ⟨⟨csv_path s, csvHeader, s.interactions.map csvRow⟩, ?_, rfl, rfl,
      by simp, ?_⟩
    · simp [save_csv, hl]
    · intro i hi
      rw [show (⟨csv_path s, csvHeader, s.interactions.map csvRow⟩ : CsvExport).rows
            = s.interactions.map csvRow from rfl,
        getD_map_lt csvRow s.interactions i hi padRecord []]
      rfl

theorem save_csv_format_witness :
    save_csv emptyRec = none ∧
    (∃ o, save_csv wState = some o ∧
      o.path = "logs/voice_agent_metrics_" ++ wState.session_id ++ ".csv" ∧
      o.header = ["session_id", "timestamp", "interaction_id",
        "speech_start_time", "speech_end_time", "response_start_time",
        "agent_response_end_time", "user_speaking_time", "agent_reply_time",
        "user_response_waiting_time", "agent_idle_time_per_question"] ∧
      o.rows.length = wState.interactions.length ∧
      ∀ i, i < wState.interactions.length →
        o.rows.getD i [] =
          [Cell.str (wState.interactions.getD i padRecord).session_id,
           Cell.str (wState.interactions.getD i padRecord).timestamp,
           Cell.str (wState.interactions.getD i padRecord).interaction_id,
           Cell.num (wState.interactions.getD i padRecord).speech_start_time,
           Cell.num (wState.interactions.getD i padRecord).speech_end_time,
           Cell.num (wState.interactions.getD i padRecord).response_start_time,
           Cell.num (wState.interactions.getD i padRecord).agent_response_end_time,
           Cell.num (wState.interactions.getD i padRecord).user_speaking_time,
           Cell.num (wState.interactions.getD i padRecord).agent_reply_time,
           Cell.num (wState.interactions.getD i padRecord).user_response_waiting_time,
           Cell.num (wState.interactions.getD i padRecord).agent_idle_time_per_question]) :=
  ⟨(save_csv_format emptyRec).1 rfl, (save_csv_format wState).2 (by decide)⟩

/-- C3 (amended): the tabular and the structured export always agree on the
turn count, in whatever order they run; and they agree on the rounded derived
values (`user_response_waiting_time`, index 9 of a row, and
`agent_idle_time_per_question`, index 10) whenever the structured export —
which recomputes them via `calculate_metrics` — runs before the tabular one.
When `save_csv` runs first on a state whose records still carry stale
placeholder derived values, its rows reproduce those stale values and may
differ from the structured export. -/
theorem csv_json_export_agreement (s : VoiceAgentMetrics) (st : ℚ)
    (hst : s.session_start_time = some st) (hin : s.interactions ≠ []) :
    ((save_csv s).map fun o => o.rows.length) = some s.interactions.length ∧
    (match (save_json s).1 with
      | Except.ok j => j.interactions.length
      | Except.error _ => 0) = s.interactions.length ∧
    (match (save_json s).1, save_csv (save_json s).2 with
      | Except.ok j, some o =>
          o.rows.map (fun row => row.getD 9 (Cell.str "")) =
            j.interactions.map (fun r => Cell.num r.user_response_waiting_time) ∧
          o.rows.map (fun row => row.getD 10 (Cell.str "")) =
            j.interactions.map (fun r => Cell.num r.agent_idle_time_per_question)
      | _, _ => False) := by
  obtain ⟨r0, rest, hl⟩ : ∃ r0 rest, s.interactions = r0 :: rest := by
    cases h : s.interactions with
    | nil => exact absurd h hin
    | cons a b => exact ⟨a, b, rfl⟩
  refine ⟨?_, ?_, ?_⟩
  · simp [save_csv, hl]
  · simp [save_json, calculate_metrics, hl, hst, metricsPass_length]
  · simp [save_json, calculate_metrics, hl, hst, save_csv, metricsPass,
      List.map_map, Function.comp_def, csvRow]

theorem csv_json_export_agreement_witness :
    ((save_csv ex3).map fun o => o.rows.length) = some ex3.interactions.length ∧
    (match (save_json ex3).1 with
      | Except.ok j => j.interactions.length
      | Except.error _ => 0) = ex3.interactions.length ∧
    (match (save_json ex3).1, save_csv (save_json ex3).2 with
      | Except.ok j, some o =>
          o.rows.map (fun row => row.getD 9 (Cell.str "")) =
            j.interactions.map (fun r => Cell.num r.user_response_waiting_time) ∧
          o.rows.map (fun row => row.getD 10 (Cell.str "")) =
            j.interactions.map (fun r => Cell.num r.agent_idle_time_per_question)
      | _, _ => False) :=
  csv_json_export_agreement ex3 0 rfl (by decide)

/-- C3 counterexample: on the session `ex3` (started at 0, one record whose
stored `user_response_waiting_time` placeholder is `0` while the recomputed
value is `round(1 - 0, 3) = 1`), invoking the exports with `save_csv` first
and no prior `calculate_metrics` — exactly the order of `Assistant.end_call`
— makes the tabular export carry `0` for the turn's waiting time while the
structured export carries `1`: the two exports of the same session disagree
on a rounded derived value. -/
theorem csv_json_export_divergence_counterexample :
    ((save_csv ex3).map fun o => o.rows.map fun row => row.getD 9 (Cell.str ""))
      = some [Cell.num 0] ∧
    (match (save_json ex3).1 with
      | Except.ok j => j.interactions.map Interaction.user_response_waiting_time
      | Except.error _ => []) = [1] ∧
    Cell.num 0 ≠ Cell.num 1 := by
  refine ⟨?_, ?_, ?_⟩
  · simp [ex3, ex3rec, save_csv, csvRow]
  · simp [save_json, calculate_metrics, ex3, ex3rec, metricsPass, updateRecord,
      mkSummary]
    norm_num [round3, roundHalfEven]
  · simp only [ne_eq, Cell.num.injEq]
    norm_num

/-- C4 (amended): on a recorder with zero interaction records, `save_json`
does not detect the empty session itself: the inner `calculate_metrics` call
logs the warning and yields the null summary, but `save_json` still writes
the document `{"session_info": null, "interactions": []}` and returns the
file path to the caller (no exception, but no null-equivalent return
either); the state is unchanged. -/
theorem save_json_empty_session (s : VoiceAgentMetrics)
    (h : s.interactions = []) :
    (save_json s).1 = Except.ok ⟨json_path s, none, []⟩ ∧
    (save_json s).2 = s := by
  simp [save_json, calculate_metrics, h]

theorem save_json_empty_session_witness :
    (save_json emptyRec).1 = Except.ok ⟨json_path emptyRec, none, []⟩ ∧
    (save_json emptyRec).2 = emptyRec :=
  save_json_empty_session emptyRec rfl

/-- C4 counterexample: on the freshly constructed recorder `emptyRec` (zero
records), `save_json` returns the concrete file path
`logs/voice_agent_metrics_sess.json` and writes the document with a null
`session_info` and an empty record list — it neither returns a
null-equivalent nor skips the file write, contradicting the claimed
EmptySession policy for this export. -/
theorem save_json_empty_session_counterexample :
    (save_json emptyRec).1
      = Except.ok ⟨"logs/voice_agent_metrics_sess.json", none, []⟩ := by
  rfl

end VoiceAgentMetrics
